import Mathlib

/-!
Shallow embedding of `src/rust/src/api/simple.rs` from block/gosling.

The source exposes three operations of a greeting service:
  * `greet(name)` — synchronous string formatting;
  * `greet_with_delay(name)` — an async function that sleeps 2 seconds
    (`tokio::time::sleep(Duration::from_secs(2)).await`) and then formats
    a string;
  * `init_app()` — calls `flutter_rust_bridge::setup_default_user_utils()`.

Strings are embedded as Lean `String`; Rust's `format!` interpolation becomes
explicit `String` concatenation.  The async function is embedded as an
explicit outcome: the list of suspension events it performs in order, plus
the value it produces.  `init_app` mutates process-wide state that lives
outside this repository, so that state is modelled from the spec.
-/

namespace Gosling

/-- One observable suspension step of an async computation.  The only
suspension in the source is `tokio::time::sleep(Duration::from_secs(d))`. -/
inductive Event where
  | sleep (secs : Nat)
deriving DecidableEq, Repr

/-- The outcome of running one async call to completion: the suspension
events it performs, in order, and the value it returns. -/
structure AsyncOutcome (α : Type) where
  events : List Event
  value  : α
deriving DecidableEq, Repr

/-- Total wall-clock seconds spent suspended when a list of events runs to
completion. -/
def elapsedSecs (es : List Event) : Nat :=
  es.foldl (fun acc e => match e with | .sleep s => acc + s) 0

/-- `pub fn greet(name: String) -> String { format!("Hello, {name}! This is from Rust!") }` -/
def greet (name : String) : String :=
  "Hello, " ++ name ++ "! This is from Rust!"

/-- `pub async fn greet_with_delay(name: String) -> String`: sleeps
`Duration::from_secs(2)` and then returns
`format!("Hello, {name}! This delayed (async) greeting is from Rust!")`. -/
def greet_with_delay (name : String) : AsyncOutcome String :=
  ⟨[Event.sleep 2], "Hello, " ++ name ++ "! This delayed (async) greeting is from Rust!"⟩

/-- Process-wide state touched by initialization.  The only effect the
source performs at startup is installing the bridge's default user
utilities. -/
structure AppState where
  defaultUserUtilsSetUp : Bool
deriving DecidableEq, Repr

/-- Modelled from the spec: `flutter_rust_bridge::setup_default_user_utils`
is not part of this repository; per the spec it "performs process-wide
one-time setup of default utility hooks for the surrounding binding
framework". -/
def setup_default_user_utils (s : AppState) : AppState :=
  { s with defaultUserUtilsSetUp := true }

/-- `pub fn init_app() { flutter_rust_bridge::setup_default_user_utils(); }` -/
def init_app (s : AppState) : AppState :=
  setup_default_user_utils s

/-- `greet` run in the context of the process-wide state.  The source
`greet` reads no global state: its body mentions only `name`. -/
def greetIn (_s : AppState) (name : String) : String :=
  greet name

/-- `greet_with_delay` run in the context of the process-wide state.  The
source body mentions only `name` and the constant duration. -/
def greet_with_delayIn (_s : AppState) (name : String) : AsyncOutcome String :=
  greet_with_delay name

/-- Result of one call as surfaced across the binding boundary.  A bridged
function whose Rust return type is `T` (not `Result<T, _>`) surfaces a
plain value; an `err` could only arise from a `Result`-returning function. -/
inductive CallResult (α : Type) where
  | ok (value : α)
  | err (message : String)
deriving DecidableEq, Repr

/-- Calling `greet` across the boundary: its return type is `String`, so
the call always surfaces `ok`. -/
def call_greet (name : String) : CallResult String :=
  .ok (greet name)

/-- Calling `greet_with_delay` across the boundary: its return type is
`String`, so the call always surfaces `ok`. -/
def call_greet_with_delay (name : String) : CallResult (AsyncOutcome String) :=
  .ok (greet_with_delay name)

/-- Calling `init_app` across the boundary: it returns `()`, so the call
always surfaces `ok` with the updated process state. -/
def call_init_app (s : AppState) : CallResult AppState :=
  .ok (init_app s)

/-! ### A two-task interleaving semantics for concurrent delayed greetings

Each task runs one call of `greet_with_delay` on its own input: it first
performs its pending suspension events one at a time, then records its
return value.  A schedule picks which task steps next; the tasks share no
state, exactly as in the source, where the async body captures only its
own `name` argument. -/

/-- The state of one in-flight `greet_with_delay` call. -/
structure TaskState where
  name    : String
  pending : List Event
  result  : Option String
deriving DecidableEq, Repr

/-- A freshly started `greet_with_delay name` call. -/
def initTask (name : String) : TaskState :=
  { name := name, pending := (greet_with_delay name).events, result := none }

/-- One cooperative step of a task: complete the next pending suspension,
or, when none remain, produce the call's return value. -/
def stepTask (t : TaskState) : TaskState :=
  match t.pending with
  | [] => { t with result := some (greet_with_delay t.name).value }
  | _ :: rest => { t with pending := rest }

/-- Run two tasks under a schedule: `true` steps the first task, `false`
the second. -/
def runSched : List Bool → TaskState × TaskState → TaskState × TaskState
  | [], p => p
  | b :: bs, (t₁, t₂) =>
      runSched bs (if b then (stepTask t₁, t₂) else (t₁, stepTask t₂))

end Gosling

namespace Gosling

/-! ### Helper lemmas -/

/-- The character data of `greet name`. -/
lemma greet_data (name : String) :
    (greet name).data =
      "Hello, ".data ++ name.data ++ "! This is from Rust!".data := by
  simp [greet, String.data_append]

/-- The character data of the value of `greet_with_delay name`. -/
lemma greet_with_delay_data (name : String) :
    (greet_with_delay name).value.data =
      "Hello, ".data ++ name.data ++
        "! This delayed (async) greeting is from Rust!".data := by
  simp [greet_with_delay, String.data_append]

/-- The two fixed templates always produce different strings, whatever the
two interpolated names: the last 20 characters of `greet`'s output never
match the last 20 characters of `greet_with_delay`'s output. -/
lemma greet_ne_greet_with_delay_value (n m : String) :
    greet n ≠ (greet_with_delay m).value := by
  intro h
  have hd := congrArg String.data h
  rw [greet_data n, greet_with_delay_data m, List.append_assoc,
    List.append_assoc] at hd
  have h₁ := List.append_cancel_left hd
  have h₂ := congrArg List.reverse h₁
  simp only [List.reverse_append] at h₂
  have h₃ := congrArg (List.take "! This is from Rust!".data.reverse.length) h₂
  rw [List.take_left, List.take_append_of_le_length (by decide)] at h₃
  exact absurd h₃ (by decide)

/-- A task state that belongs to the call `greet_with_delay n`: it still
carries the input `n`, and any result it has recorded is the value the
source computes from `n` alone. -/
def goodTask (n : String) (t : TaskState) : Prop :=
  t.name = n ∧ ∀ r, t.result = some r → r = (greet_with_delay n).value

lemma goodTask_initTask (n : String) : goodTask n (initTask n) :=
  ⟨rfl, fun r hr => by simp [initTask] at hr⟩

lemma goodTask_stepTask {n : String} {t : TaskState} (h : goodTask n t) :
    goodTask n (stepTask t) := by
  obtain ⟨name, pending, result⟩ := t
  obtain ⟨hn, hr⟩ := h
  cases pending with
  | nil =>
      refine ⟨hn, fun r hr' => ?_⟩
      have hv := Option.some.inj hr'
      rw [← hv, hn]
  | cons e rest =>
      exact ⟨hn, fun r hr' => hr r hr'⟩

lemma goodTask_runSched {n₁ n₂ : String} :
    ∀ (sched : List Bool) (p : TaskState × TaskState),
      goodTask n₁ p.1 → goodTask n₂ p.2 →
      goodTask n₁ (runSched sched p).1 ∧ goodTask n₂ (runSched sched p).2 := by
  intro sched
  induction sched with
  | nil => exact fun p h₁ h₂ => ⟨h₁, h₂⟩
  | cons b bs ih =>
      intro p h₁ h₂
      obtain ⟨t₁, t₂⟩ := p
      cases b with
      | true => exact ih (stepTask t₁, t₂) (goodTask_stepTask h₁) h₂
      | false => exact ih (t₁, stepTask t₂) h₁ (goodTask_stepTask h₂)

end Gosling

namespace Gosling

/-! ### Claims -/

/-- C1: for every input `n` (including the empty string), `greet n` is
exactly `"Hello, "` followed by `n` followed by `"! This is from Rust!"`;
in particular `greet ""` and `greet "World"` give the two listed strings. -/
theorem greet_returns_exact_template :
    (∀ n : String, greet n = "Hello, " ++ n ++ "! This is from Rust!") ∧
    greet "" = "Hello, ! This is from Rust!" ∧
    greet "World" = "Hello, World! This is from Rust!" :=
  ⟨fun _ => rfl, by decide, by decide⟩

/-- C2: for every input `n`, the value produced by `greet_with_delay n`
is exactly `"Hello, "` followed by `n` followed by
`"! This delayed (async) greeting is from Rust!"`. -/
theorem greet_with_delay_returns_exact_template (n : String) :
    (greet_with_delay n).value =
      "Hello, " ++ n ++ "! This delayed (async) greeting is from Rust!" :=
  rfl

/-- C3: for every input `n`, the async computation of `greet_with_delay n`
performs exactly one suspension, a 2-second sleep, so the input does not
adjust the delay and running the computation to completion takes at least
2 seconds of wall-clock suspension. -/
theorem greet_with_delay_fixed_two_second_delay (n : String) :
    (greet_with_delay n).events = [Event.sleep 2] ∧
    2 ≤ elapsedSecs (greet_with_delay n).events :=
  ⟨rfl, Nat.le.refl⟩

/-- C4: for every input `n`, the output of `greet n` contains `n` verbatim
as a contiguous substring, and so does the value of `greet_with_delay n`. -/
theorem outputs_contain_input_verbatim (n : String) :
    n.data <:+: (greet n).data ∧
    n.data <:+: (greet_with_delay n).value.data :=
  ⟨⟨"Hello, ".data, "! This is from Rust!".data, (greet_data n).symm⟩,
   ⟨"Hello, ".data, "! This delayed (async) greeting is from Rust!".data,
    (greet_with_delay_data n).symm⟩⟩

/-- C5: none of the three operations can fail in a way surfaced to the
caller: on every input, each call surfaces `ok` with its value, never
`err`. -/
theorem operations_never_surface_errors (n : String) (s : AppState) :
    call_greet n = CallResult.ok (greet n) ∧
    call_greet_with_delay n = CallResult.ok (greet_with_delay n) ∧
    call_init_app s = CallResult.ok (init_app s) :=
  ⟨rfl, rfl, rfl⟩

/-- C6: for every input `n` and every number `k` of preceding `init_app`
calls on the process state, `greet` returns the same output as with no
preceding calls. -/
theorem init_app_does_not_change_greet (k : Nat) (s : AppState) (n : String) :
    greetIn (init_app^[k] s) n = greetIn s n :=
  rfl

/-- C7: `greet` and `greet_with_delay` are deterministic: two invocations
on the same input `n`, under any two process states, produce equal
outputs; the output depends on nothing but the input. -/
theorem greet_operations_deterministic (s₁ s₂ : AppState) (n : String) :
    greetIn s₁ n = greetIn s₂ n ∧
    greet_with_delayIn s₁ n = greet_with_delayIn s₂ n :=
  ⟨rfl, rfl⟩

/-- C8: under any interleaving schedule of two concurrent
`greet_with_delay` calls on inputs `n₁` and `n₂`, any result either task
records is the template applied to that task's own input — no
cross-contamination between the calls. -/
theorem greet_with_delay_concurrent_isolation
    (sched : List Bool) (n₁ n₂ : String) (r₁ r₂ : String)
    (h₁ : (runSched sched (initTask n₁, initTask n₂)).1.result = some r₁)
    (h₂ : (runSched sched (initTask n₁, initTask n₂)).2.result = some r₂) :
    r₁ = (greet_with_delay n₁).value ∧ r₂ = (greet_with_delay n₂).value := by
  obtain ⟨g₁, g₂⟩ := goodTask_runSched sched (initTask n₁, initTask n₂)
    (goodTask_initTask n₁) (goodTask_initTask n₂)
  exact ⟨g₁.2 r₁ h₁, g₂.2 r₂ h₂⟩

/-- Witness for C8: the schedule that steps task 1 twice then task 2 twice
completes both calls, and the theorem yields their exact outputs. -/
theorem greet_with_delay_concurrent_isolation_witness :
    "Hello, a! This delayed (async) greeting is from Rust!" =
      (greet_with_delay "a").value ∧
    "Hello, b! This delayed (async) greeting is from Rust!" =
      (greet_with_delay "b").value :=
  greet_with_delay_concurrent_isolation [true, true, false, false] "a" "b"
    "Hello, a! This delayed (async) greeting is from Rust!"
    "Hello, b! This delayed (async) greeting is from Rust!"
    (by decide) (by decide)

/-- C9: `greet` is injective and so is the value of `greet_with_delay`:
distinct inputs give distinct outputs, because each template embeds the
input between two fixed literals. -/
theorem greet_operations_injective (n₁ n₂ : String) :
    (greet n₁ = greet n₂ → n₁ = n₂) ∧
    ((greet_with_delay n₁).value = (greet_with_delay n₂).value → n₁ = n₂) := by
  constructor
  · intro h
    have hd := congrArg String.data h
    rw [greet_data n₁, greet_data n₂] at hd
    exact String.ext
      (List.append_cancel_left (List.append_cancel_right hd))
  · intro h
    have hd := congrArg String.data h
    rw [greet_with_delay_data n₁, greet_with_delay_data n₂] at hd
    exact String.ext
      (List.append_cancel_left (List.append_cancel_right hd))

/-- Witness for C9: the theorem applied at the concrete input pair
`("a", "a")`, whose hypotheses hold by computation. -/
theorem greet_operations_injective_witness :
    ("a" : String) = "a" ∧ ("a" : String) = "a" :=
  ⟨(greet_operations_injective "a" "a").1 (by decide),
   (greet_operations_injective "a" "a").2 (by decide)⟩

/-- C10: for all inputs `n` and `m`, the output of `greet n` never equals
the value of `greet_with_delay m`: the two fixed literal templates differ,
so a caller can always tell which operation produced a given greeting. -/
theorem greet_outputs_disjoint_from_delayed (n m : String) :
    (greet n == (greet_with_delay m).value) = false :=
  beq_eq_false_iff_ne.mpr (greet_ne_greet_with_delay_value n m)

end Gosling
